import Mathlib

/-!
Verification of `src/kwikset.ts` from homebridge-kwikset-halo.

The source is a single TypeScript module: an interactive Cognito login flow
(`kwiksetLogin`), a bootstrapper for cached tokens (`logInWithStoredCreds`,
`getCredentialsFromSession`), on-disk JSON persistence of a credential
record, an MFA verify loop served by a local Express listener, and an
authenticated request helper (`apiRequest`).

The embedding is a shallow one: every external effect (the Cognito SDK
calls, the filesystem, the MFA form submissions) is an oracle value in an
`Env` record, and `kwiksetLogin` becomes a pure function from the previous
process-wide `idToken` and an `Env` to a `LoginTrace` recording exactly the
observable events the source performs: whether the Express listener was
started, what (if anything) was written to the token file, the final
process-wide `idToken`, and how the run ended (completed / early return /
promise rejection / suspended waiting for an MFA code).

JSON serialization of the credential record (`JSON.stringify` /
`JSON.parse` in the source) is modelled at the character level, including
JavaScript's string-escape rules, so that the save/load round trip is a
real theorem about bytes rather than an assumption.
-/

/-- The `Credentials` type of kwikset.ts (lines 18-22): the credential
record `\x7bidToken, accessToken, refreshToken\x7d`, all strings. -/
structure Credentials where
  idToken : String
  accessToken : String
  refreshToken : String
deriving DecidableEq, Repr

/-- Outcome of a Cognito `user.getSession` callback: either an error, or a
session carrying the three JWT strings read at lines 34-38. -/
inductive SessionResult where
  | err
  | ok (idJwt accessJwt refreshJwt : String)
deriving DecidableEq, Repr

/-- `getCredentialsFromSession` (lines 26-41): resolves `null` when
`getSession` errors, otherwise the record of the session's three tokens. -/
def getCredentialsFromSession : SessionResult → Option Credentials
  | .err => none
  | .ok i a r => some ⟨i, a, r⟩

/-- `logInWithStoredCreds` (lines 43-75): reconstructs the Cognito session
objects from the stored tokens and delegates to `getCredentialsFromSession`.
The SDK's `getSession` outcome is the oracle `storedSession`; the stored
tokens themselves only feed the SDK object construction. -/
def logInWithStoredCreds (storedSession : SessionResult) (_saved : Credentials) :
    Option Credentials :=
  getCredentialsFromSession storedSession

/-! ## JSON serialization of the credential record

`JSON.stringify` on a record of three string fields emits
`\x7b"idToken":"...","accessToken":"...","refreshToken":"..."\x7d` with the
standard JSON string escapes; `JSON.stringify(null)` emits `null`.
`JSON.parse` is modelled on the shapes this module ever stores: the literal
`null` and the three-field record; any other text is a parse error
(the source would throw at line 83). -/

/-- Lower-case hex digit for a nibble, as `JSON.stringify` emits in
`\u00XX` escapes. -/
def toHexDigit (n : Nat) : Char :=
  if n < 10 then Char.ofNat (48 + n) else Char.ofNat (87 + n)

/-- Inverse of `toHexDigit`, accepting upper-case as JSON.parse does. -/
def fromHexDigit (c : Char) : Option Nat :=
  if 48 ≤ c.toNat ∧ c.toNat ≤ 57 then some (c.toNat - 48)
  else if 97 ≤ c.toNat ∧ c.toNat ≤ 102 then some (c.toNat - 87)
  else if 65 ≤ c.toNat ∧ c.toNat ≤ 70 then some (c.toNat - 55)
  else none

/-- JavaScript JSON string escaping of one character: `"` and `\` get a
backslash, the named control escapes are used where they exist, all other
control characters become `\u00XX`, and everything else is literal. -/
def escapeChar (c : Char) : List Char :=
  if c = '"' then ['\\', '"']
  else if c = '\\' then ['\\', '\\']
  else if 32 ≤ c.toNat then [c]
  else if c = '\x08' then ['\\', 'b']
  else if c = '\t' then ['\\', 't']
  else if c = '\n' then ['\\', 'n']
  else if c = '\x0c' then ['\\', 'f']
  else if c = '\r' then ['\\', 'r']
  else ['\\', 'u', '0', '0', toHexDigit (c.toNat / 16), toHexDigit (c.toNat % 16)]

/-- A JSON string literal: quote, escaped characters, closing quote. -/
def quoteStr (s : List Char) : List Char :=
  '"' :: (s.flatMap escapeChar ++ ['"'])

/-- Decode the body of a JSON string literal (the opening quote already
consumed), returning the decoded characters and the text after the closing
quote; `none` on malformed input. -/
def unescapeChars : List Char → Option (List Char × List Char)
  | [] => none
  | c :: rest =>
    if c = '"' then some ([], rest)
    else if c = '\\' then
      match rest with
      | [] => none
      | e :: r =>
        if e = '"' then (fun p => ('"' :: p.1, p.2)) <$> unescapeChars r
        else if e = '\\' then (fun p => ('\\' :: p.1, p.2)) <$> unescapeChars r
        else if e = 'b' then (fun p => ('\x08' :: p.1, p.2)) <$> unescapeChars r
        else if e = 't' then (fun p => ('\t' :: p.1, p.2)) <$> unescapeChars r
        else if e = 'n' then (fun p => ('\n' :: p.1, p.2)) <$> unescapeChars r
        else if e = 'f' then (fun p => ('\x0c' :: p.1, p.2)) <$> unescapeChars r
        else if e = 'r' then (fun p => ('\r' :: p.1, p.2)) <$> unescapeChars r
        else if e = 'u' then
          match r with
          | h1 :: h2 :: h3 :: h4 :: r2 =>
            match fromHexDigit h1, fromHexDigit h2, fromHexDigit h3, fromHexDigit h4 with
            | some a, some b, some c2, some d =>
              (fun p => (Char.ofNat (((a * 16 + b) * 16 + c2) * 16 + d) :: p.1, p.2))
                <$> unescapeChars r2
            | _, _, _, _ => none
          | _ => none
        else none
    else (fun p => (c :: p.1, p.2)) <$> unescapeChars rest

/-- Parse a JSON string literal at the head of the input. -/
def parseJsonString : List Char → Option (List Char × List Char)
  | [] => none
  | c :: rest => if c = '"' then unescapeChars rest else none

/-- Consume an exact literal at the head of the input, returning the rest. -/
def expectLit : List Char → List Char → Option (List Char)
  | [], l => some l
  | _ :: _, [] => none
  | p :: ps, c :: cs => if c = p then expectLit ps cs else none

/-- The four characters `JSON.stringify(null)` produces. -/
def jsNull : List Char := ['n', 'u', 'l', 'l']

/-- The literal text before the `idToken` value in the serialized record. -/
def litIdToken : List Char := '\x7b' :: (quoteStr "idToken".data ++ [':'])

/-- The literal text before the `accessToken` value. -/
def litAccessToken : List Char := ',' :: (quoteStr "accessToken".data ++ [':'])

/-- The literal text before the `refreshToken` value. -/
def litRefreshToken : List Char := ',' :: (quoteStr "refreshToken".data ++ [':'])

/-- `JSON.stringify` of a `Credentials` record: the three fields in
declaration order, each value a JSON string literal. -/
def credsStringify (r : Credentials) : List Char :=
  litIdToken ++ quoteStr r.idToken.data
    ++ litAccessToken ++ quoteStr r.accessToken.data
    ++ litRefreshToken ++ quoteStr r.refreshToken.data ++ ['\x7d']

/-- `JSON.stringify` of the nullable record written at line 173: `null`
serializes to the text `null`. -/
def jsonStringifyOpt : Option Credentials → List Char
  | none => jsNull
  | some r => credsStringify r

/-- `JSON.parse` restricted to the shapes this module stores: `null` gives
the JavaScript value `null` (`some none`), a well-formed record gives the
record, anything else throws (`none`). -/
def jsonParseCreds (l : List Char) : Option (Option Credentials) :=
  if l = jsNull then some none
  else do
    let l1 ← expectLit litIdToken l
    let (v1, l2) ← parseJsonString l1
    let l3 ← expectLit litAccessToken l2
    let (v2, l4) ← parseJsonString l3
    let l5 ← expectLit litRefreshToken l4
    let (v3, l6) ← parseJsonString l5
    match l6 with
    | ['\x7d'] => some (some ⟨⟨v1⟩, ⟨v2⟩, ⟨v3⟩⟩)
    | _ => none

/-- Lines 81-84: `savedCreds` stays `undefined` (`.ok none`) when
`fs.existsSync` is false; otherwise the file text is parsed, a parse
failure rejecting the whole async function (`.error`). `.ok (some v)` is
the parsed JavaScript value, itself possibly `null`. -/
def loadSavedCreds : Option (List Char) → Except Unit (Option (Option Credentials))
  | none => .ok none
  | some text =>
    match jsonParseCreds text with
    | none => .error ()
    | some v => .ok (some v)

/-- The `user` object returned by `Auth.signIn`; only `challengeName` is
inspected (line 117). -/
structure ChallengeUser where
  challengeName : String
deriving DecidableEq, Repr

/-- One iteration of the MFA verify loop body (lines 150-163), keyed by a
submitted code: either `Auth.currentAuthenticatedUser` rejected (the
`catch`, resolving `false`), or it succeeded and its session produced the
given `getSession` outcome (resolving `true`). -/
inductive MfaAttempt where
  | authThrew
  | authOk (session : SessionResult)
deriving DecidableEq, Repr

/-- State of the MFA verify loop: the `codeVerified` flag (line 147), the
`credentials` captured at line 158, whether the Express listener is open,
and whether the 7-second delayed `server.close()` (line 134-136) has been
scheduled. -/
structure MfaLoopState where
  codeVerified : Bool
  credentials : Option Credentials
  listenerOpen : Bool
  closeScheduled : Bool
deriving DecidableEq, Repr

/-- Loop state just after `app.listen` (lines 143-147): listener open, no
code verified yet, no credentials captured. -/
def mfaInit : MfaLoopState :=
  { codeVerified := false, credentials := none, listenerOpen := true, closeScheduled := false }

/-- One pass of the do-while body (lines 148-169) on a submitted code. A
rejected code redirects back to the form and loops; an accepted one
captures `credentials` from the now-authenticated session, schedules the
delayed listener close, and sets `codeVerified`. After `codeVerified` the
loop has exited and further attempts are not processed. -/
def mfaStep (st : MfaLoopState) (a : MfaAttempt) : MfaLoopState :=
  if st.codeVerified then st
  else
    match a with
    | .authThrew => st
    | .authOk s =>
      { st with
        codeVerified := true
        credentials := getCredentialsFromSession s
        closeScheduled := true }

/-- All external nondeterminism of one `kwiksetLogin` run: the token file's
contents (`none` = no file), the `getSession` outcome inside
`logInWithStoredCreds`, the `Auth.signIn` outcome, the outcomes of the MFA
codes submitted (in order), and the post-loop
`Auth.currentAuthenticatedUser` fetch at line 172 (`none` = it threw,
`some s` = it succeeded with `getSession` outcome `s`). -/
structure Env where
  fileContents : Option (List Char)
  storedSession : SessionResult
  signIn : Except String ChallengeUser
  mfaAttempts : List MfaAttempt
  finalAuth : Option SessionResult
deriving Repr

/-- How a `kwiksetLogin` run ended. -/
inductive LoginStatus where
  /-- `JSON.parse` threw at line 83; the returned promise rejects. -/
  | threwParse
  /-- `Auth.signIn` threw; caught and the function returns at line 114. -/
  | signInErrorReturn
  /-- `Auth.currentAuthenticatedUser` threw at line 172; the promise rejects. -/
  | threwFinalAuth
  /-- Ran to the end (line 182), with line 180 executed. -/
  | completed
  /-- Suspended inside the verify loop, waiting for another code. -/
  | awaitingMfaCode
deriving DecidableEq, Repr

/-- Observable trace of one `kwiksetLogin` run. -/
structure LoginTrace where
  /-- Whether `logInWithStoredCreds` was invoked (line 100). -/
  bootstrapperCalled : Bool
  /-- Whether `app.listen` was invoked (line 143). -/
  listenStarted : Bool
  /-- The text written to the token file at line 173, if the write ran. -/
  fileWritten : Option (List Char)
  /-- The process-wide `idToken` after the run (line 24 / line 180). -/
  finalIdToken : Option String
  status : LoginStatus
deriving DecidableEq, Repr

/-- Lines 81-106 as one stage: load the saved record and, when the parsed
value is truthy (an actual record: `undefined` and `null` are falsy at
line 99), invoke the bootstrapper. Returns `.error` when `JSON.parse`
threw, otherwise whether the bootstrapper ran and the `credentials` value
after line 106. -/
def cachedStage (env : Env) : Except Unit (Bool × Option Credentials) :=
  match loadSavedCreds env.fileContents with
  | .error _ => .error ()
  | .ok (some (some sc)) => .ok (true, logInWithStoredCreds env.storedSession sc)
  | .ok _ => .ok (false, none)

/-- `kwiksetLogin` (lines 77-182) as a function of the previous
process-wide `idToken` and the environment. Mirrors the source
control flow: load the saved record and try the bootstrapper
(`cachedStage`, lines 81-106); when that yields no credentials, password
sign-in with early return on throw (110-115); on a `CUSTOM_CHALLENGE`
start the listener and run the verify loop (117-169); persist the record
fetched at line 172 (173); any other challenge only logs (175-177);
finally assign the global `idToken` from `credentials?.idToken` (180). -/
def kwiksetLogin (prevIdToken : Option String) (env : Env) : LoginTrace :=
  match cachedStage env with
  | .error _ =>
    { bootstrapperCalled := false, listenStarted := false, fileWritten := none
      finalIdToken := prevIdToken, status := .threwParse }
  | .ok boot =>
    match boot.2 with
    | some creds =>
      { bootstrapperCalled := boot.1, listenStarted := false, fileWritten := none
        finalIdToken := some creds.idToken, status := .completed }
    | none =>
      match env.signIn with
      | .error _ =>
        { bootstrapperCalled := boot.1, listenStarted := false, fileWritten := none
          finalIdToken := prevIdToken, status := .signInErrorReturn }
      | .ok user =>
        if user.challengeName = "CUSTOM_CHALLENGE" then
          let final := env.mfaAttempts.foldl mfaStep mfaInit
          if final.codeVerified then
            match env.finalAuth with
            | none =>
              { bootstrapperCalled := boot.1, listenStarted := true, fileWritten := none
                finalIdToken := prevIdToken, status := .threwFinalAuth }
            | some fs =>
              { bootstrapperCalled := boot.1, listenStarted := true
                fileWritten := some (jsonStringifyOpt (getCredentialsFromSession fs))
                finalIdToken := (final.credentials).map Credentials.idToken
                status := .completed }
          else
            { bootstrapperCalled := boot.1, listenStarted := true, fileWritten := none
              finalIdToken := prevIdToken, status := .awaitingMfaCode }
        else
          { bootstrapperCalled := boot.1, listenStarted := false, fileWritten := none
            finalIdToken := none, status := .completed }

/-- Modelled from the spec: the constants imported from `./const` (not part
of src/): the fixed API host and user agent. Their concrete values do not
matter to any claim, so they are carried as parameters. -/
structure Consts where
  API_HOST : String
  API_USER_AGENT : String
deriving DecidableEq, Repr

/-- JavaScript template-literal interpolation of a possibly-undefined
string: `undefined` stringifies to the text `undefined`. -/
def jsTemplateStr : Option String → String
  | some s => s
  | none => "undefined"

/-- The outbound request `fetch` receives at lines 192-196. -/
structure HttpRequest where
  url : String
  method : String
  headers : List (String × String)
  body : Option String
deriving DecidableEq, Repr

/-- `apiRequest` (lines 184-197): builds the fixed header set including
`Authorization: Bearer $\x7bidToken\x7d` from the process-wide token and
targets `https://API_HOST/path`. Total: no check that a login occurred. -/
def apiRequest (consts : Consts) (idTok : Option String)
    (path method : String) (body : Option String) : HttpRequest :=
  { url := "https://" ++ consts.API_HOST ++ "/" ++ path
    method := method
    headers :=
      [("Host", consts.API_HOST),
       ("User-Agent", consts.API_USER_AGENT),
       ("Accept-Encoding", "gzip"),
       ("Authorization", "Bearer " ++ jsTemplateStr idTok)]
    body := body }

/-! ## Proof layer: JSON round trip, the MFA loop, and the claims -/

theorem fromHexDigit_toHexDigit (n : Nat) (h : n < 16) :
    fromHexDigit (toHexDigit n) = some n := by
  interval_cases n <;> rfl

theorem unescapeChars_escapeChar (c : Char) (l : List Char) :
    unescapeChars (escapeChar c ++ l) =
      (fun p => (c :: p.1, p.2)) <$> unescapeChars l := by
  by_cases h1 : c = '"'
  · subst h1
    rw [show escapeChar '"' = ['\\', '"'] from rfl, List.cons_append, List.cons_append,
      List.nil_append, unescapeChars.eq_def]
    simp
  · by_cases h2 : c = '\\'
    · subst h2
      rw [show escapeChar '\\' = ['\\', '\\'] from rfl, List.cons_append, List.cons_append,
        List.nil_append, unescapeChars.eq_def]
      simp
    · by_cases h3 : 32 ≤ c.toNat
      · rw [show escapeChar c = [c] from by
          unfold escapeChar; rw [if_neg h1, if_neg h2, if_pos h3]]
        rw [List.cons_append, List.nil_append, unescapeChars.eq_def]
        simp [h1, h2]
      · by_cases h4 : c = '\x08'
        · subst h4
          rw [show escapeChar '\x08' = ['\\', 'b'] from rfl, List.cons_append, List.cons_append,
            List.nil_append, unescapeChars.eq_def]
          simp
        · by_cases h5 : c = '\t'
          · subst h5
            rw [show escapeChar '\t' = ['\\', 't'] from rfl, List.cons_append, List.cons_append,
              List.nil_append, unescapeChars.eq_def]
            simp
          · by_cases h6 : c = '\n'
            · subst h6
              rw [show escapeChar '\n' = ['\\', 'n'] from rfl, List.cons_append, List.cons_append,
                List.nil_append, unescapeChars.eq_def]
              simp
            · by_cases h7 : c = '\x0c'
              · subst h7
                rw [show escapeChar '\x0c' = ['\\', 'f'] from rfl, List.cons_append,
                  List.cons_append, List.nil_append, unescapeChars.eq_def]
                simp
              · by_cases h8 : c = '\r'
                · subst h8
                  rw [show escapeChar '\r' = ['\\', 'r'] from rfl, List.cons_append,
                    List.cons_append, List.nil_append, unescapeChars.eq_def]
                  simp
                · have hd1 : c.toNat / 16 < 16 := by omega
                  have hd2 : c.toNat % 16 < 16 := by omega
                  rw [show escapeChar c =
                      ['\\', 'u', '0', '0', toHexDigit (c.toNat / 16), toHexDigit (c.toNat % 16)]
                    from by
                      unfold escapeChar
                      rw [if_neg h1, if_neg h2, if_neg h3, if_neg h4, if_neg h5, if_neg h6,
                        if_neg h7, if_neg h8]]
                  rw [List.cons_append, List.cons_append, List.cons_append, List.cons_append,
                    List.cons_append, List.cons_append, List.nil_append, unescapeChars.eq_def]
                  have h0 : fromHexDigit '0' = some 0 := rfl
                  simp [h0, fromHexDigit_toHexDigit _ hd1, fromHexDigit_toHexDigit _ hd2,
                    Nat.div_add_mod', Char.ofNat_toNat]

theorem unescapeChars_flatMap (s l : List Char) :
    unescapeChars (s.flatMap escapeChar ++ ('"' :: l)) = some (s, l) := by
  induction s with
  | nil =>
    rw [List.flatMap_nil, List.nil_append, unescapeChars.eq_def]
    simp
  | cons c s ih =>
    rw [List.flatMap_cons, List.append_assoc, unescapeChars_escapeChar, ih]
    rfl

theorem parseJsonString_quoteStr (s l : List Char) :
    parseJsonString (quoteStr s ++ l) = some (s, l) := by
  rw [quoteStr, List.cons_append, List.append_assoc]
  show parseJsonString ('"' :: (s.flatMap escapeChar ++ ('"' :: l))) = some (s, l)
  rw [parseJsonString]
  simp [unescapeChars_flatMap]

theorem expectLit_append (p l : List Char) : expectLit p (p ++ l) = some l := by
  induction p with
  | nil => rfl
  | cons c p ih => simp [expectLit, ih]

theorem credsStringify_ne_jsNull (r : Credentials) : credsStringify r ≠ jsNull := by
  intro h
  have hh := congrArg List.head? h
  rw [credsStringify, litIdToken] at hh
  simp [jsNull] at hh

theorem jsonParseCreds_credsStringify (r : Credentials) :
    jsonParseCreds (credsStringify r) = some (some r) := by
  rw [jsonParseCreds, if_neg (credsStringify_ne_jsNull r)]
  rw [credsStringify]
  simp only [List.append_assoc]
  simp only [Option.bind_some, Option.some_bind, bind, parseJsonString_quoteStr,
    expectLit_append]

theorem mfaStep_authThrew (st : MfaLoopState) : mfaStep st .authThrew = st := by
  unfold mfaStep; split <;> rfl

theorem foldl_mfaStep_rejects (l : List MfaAttempt) (h : ∀ x ∈ l, x = MfaAttempt.authThrew)
    (st : MfaLoopState) : l.foldl mfaStep st = st := by
  induction l with
  | nil => rfl
  | cons a l ih =>
    have ha := h a (by simp)
    subst ha
    rw [List.foldl_cons, mfaStep_authThrew]
    exact ih (fun x hx => h x (by simp [hx]))

theorem foldl_mfaStep_success (rejects : List MfaAttempt)
    (h : ∀ x ∈ rejects, x = MfaAttempt.authThrew) (s : SessionResult) :
    (rejects ++ [MfaAttempt.authOk s]).foldl mfaStep mfaInit =
      { codeVerified := true, credentials := getCredentialsFromSession s,
        listenerOpen := true, closeScheduled := true } := by
  rw [List.foldl_append, foldl_mfaStep_rejects rejects h]
  rfl

/-- C1: in every run of `kwiksetLogin` where a stored credential record
exists on disk and the Session Bootstrapper (`logInWithStoredCreds`)
returns a non-null Credential Record `c`, the flow completes with the
in-memory `idToken` set to `c.idToken` and `app.listen` is never
invoked. -/
theorem kwikset_C1 (prev : Option String) (env : Env) (r c : Credentials)
    (hfile : env.fileContents = some (credsStringify r))
    (hboot : getCredentialsFromSession env.storedSession = some c) :
    kwiksetLogin prev env =
      { bootstrapperCalled := true, listenStarted := false, fileWritten := none
        finalIdToken := some c.idToken, status := .completed } := by
  have hcs : cachedStage env = .ok (true, some c) := by
    rw [cachedStage, hfile]
    simp [loadSavedCreds, jsonParseCreds_credsStringify, logInWithStoredCreds, hboot]
  rw [kwiksetLogin, hcs]

/-- Helper: whenever the cached stage did not throw, the trace records the
bootstrapper flag and the run did not end in a parse rejection. -/
theorem kwiksetLogin_after_cachedStage (prev : Option String) (env : Env) (b : Bool)
    (cr : Option Credentials) (hc : cachedStage env = .ok (b, cr)) :
    (kwiksetLogin prev env).bootstrapperCalled = b ∧
    (kwiksetLogin prev env).status ≠ LoginStatus.threwParse := by
  rw [kwiksetLogin, hc]
  cases cr with
  | some c => simp
  | none =>
    cases hsi : env.signIn with
    | error msg => simp
    | ok u =>
      by_cases hu : u.challengeName = "CUSTOM_CHALLENGE"
      · simp only [hu, if_pos]
        by_cases hv : (env.mfaAttempts.foldl mfaStep mfaInit).codeVerified
        · cases hfa : env.finalAuth <;> simp [hv, hfa]
        · simp [hv]
      · simp [hu]

/-- C2: every `apiRequest` for `lock/status` with method `GET` made after
a login that captured `idToken` `t` carries the header
`Authorization: Bearer t` and targets `https://API_HOST/lock/status`
with method GET. -/
theorem kwikset_C2 (consts : Consts) (prev : Option String) (env : Env) (t : String)
    (h : (kwiksetLogin prev env).finalIdToken = some t) :
    apiRequest consts (kwiksetLogin prev env).finalIdToken "lock/status" "GET" none =
      { url := "https://" ++ consts.API_HOST ++ "/lock/status"
        method := "GET"
        headers := [("Host", consts.API_HOST), ("User-Agent", consts.API_USER_AGENT),
          ("Accept-Encoding", "gzip"), ("Authorization", "Bearer " ++ t)]
        body := none } := by
  rw [h, apiRequest]
  simp [jsTemplateStr, String.append_assoc]

/-- C3: in the MFA verify loop, after any number of rejected codes the
loop state is unchanged from the initial waiting state (still in
`MfaChallenge`, listener open, no close scheduled) — there is no bound on
the number of attempts — and a subsequently accepted code still completes
the flow, sets the in-memory `idToken`, and persists a new Credential
Record fetched after the loop. -/
theorem kwikset_C3 (prev : Option String) (env : Env) (b : Bool)
    (rejects : List MfaAttempt) (i a r fi fa fr : String)
    (hc : cachedStage env = .ok (b, none))
    (hsi : env.signIn = .ok ⟨"CUSTOM_CHALLENGE"⟩)
    (hrej : ∀ x ∈ rejects, x = MfaAttempt.authThrew)
    (hatt : env.mfaAttempts = rejects ++ [MfaAttempt.authOk (.ok i a r)])
    (hfin : env.finalAuth = some (.ok fi fa fr)) :
    (∀ n : Nat, (rejects.take n).foldl mfaStep mfaInit = mfaInit) ∧
    kwiksetLogin prev env =
      { bootstrapperCalled := b, listenStarted := true
        fileWritten := some (credsStringify ⟨fi, fa, fr⟩)
        finalIdToken := some i, status := .completed } := by
  constructor
  · intro n
    exact foldl_mfaStep_rejects _ (fun x hx => hrej x (List.mem_of_mem_take hx)) mfaInit
  · rw [kwiksetLogin, hc]
    simp only [hsi, hatt, foldl_mfaStep_success rejects hrej]
    simp [hfin, getCredentialsFromSession, jsonStringifyOpt]

/-- C4: when the cached session is absent or invalid and `Auth.signIn`
throws, `kwiksetLogin` returns early: unauthenticated (the process-wide
`idToken` is left as it was, so `none` in a fresh process), nothing is
written to disk, the listener is never started, and the error is caught
rather than propagated (status is the early `return`, not a promise
rejection). -/
theorem kwikset_C4 (prev : Option String) (env : Env) (b : Bool) (msg : String)
    (hc : cachedStage env = .ok (b, none))
    (hsi : env.signIn = .error msg) :
    kwiksetLogin prev env =
      { bootstrapperCalled := b, listenStarted := false, fileWritten := none
        finalIdToken := prev, status := .signInErrorReturn } := by
  rw [kwiksetLogin, hc]
  simp [hsi]

/-- C5: when password sign-in succeeds but the challenge name is not
`CUSTOM_CHALLENGE`, the flow completes unauthenticated: the in-memory
`idToken` is assigned from the still-null `credentials` (so holds no token
from this attempt), no record is written, and the listener is never
started. -/
theorem kwikset_C5 (prev : Option String) (env : Env) (b : Bool) (u : ChallengeUser)
    (hc : cachedStage env = .ok (b, none))
    (hsi : env.signIn = .ok u)
    (hu : u.challengeName ≠ "CUSTOM_CHALLENGE") :
    kwiksetLogin prev env =
      { bootstrapperCalled := b, listenStarted := false, fileWritten := none
        finalIdToken := none, status := .completed } := by
  rw [kwiksetLogin, hc]
  simp [hsi, hu]

/-- C6: round-trip law of the Token Store — a Credential Record written
via `JSON.stringify` + `writeFileSync` and loaded back via `readFileSync`
+ `JSON.parse` yields a record whose three field values are byte-identical
to the original. -/
theorem kwikset_C6 (r : Credentials) :
    jsonParseCreds (credsStringify r) = some (some r) :=
  jsonParseCreds_credsStringify r

/-- C7: when the token file does not exist at the computed save path, the
load step yields \"absent\" (`savedCreds` stays `undefined`, so the
cached-session branch is skipped and the bootstrapper never runs) and no
error is raised (the run never ends in a parse rejection). -/
theorem kwikset_C7 (prev : Option String) (env : Env)
    (h : env.fileContents = none) :
    loadSavedCreds env.fileContents = .ok none ∧
    (kwiksetLogin prev env).bootstrapperCalled = false ∧
    (kwiksetLogin prev env).status ≠ LoginStatus.threwParse := by
  have hcs : cachedStage env = .ok (false, none) := by rw [cachedStage, h]; rfl
  have h2 := kwiksetLogin_after_cachedStage prev env false none hcs
  exact ⟨by rw [h]; rfl, h2.1, h2.2⟩

/-- C8: frame property of the token file — a run that authenticates via a
valid cached session performs no write (and starts no listener), and
conversely any write the function ever performs happens on the path where
the cached stage yielded nothing, sign-in returned a `CUSTOM_CHALLENGE`,
the verify loop completed successfully, and the written text is the
serialization of the post-loop session fetch. -/
theorem kwikset_C8 (prev : Option String) (env : Env) :
    (∀ (b : Bool) (c : Credentials), cachedStage env = .ok (b, some c) →
      (kwiksetLogin prev env).fileWritten = none ∧
      (kwiksetLogin prev env).listenStarted = false) ∧
    (∀ text : List Char, (kwiksetLogin prev env).fileWritten = some text →
      ∃ (b : Bool) (u : ChallengeUser) (fs : SessionResult),
        cachedStage env = .ok (b, none) ∧ env.signIn = .ok u ∧
        u.challengeName = "CUSTOM_CHALLENGE" ∧
        (env.mfaAttempts.foldl mfaStep mfaInit).codeVerified = true ∧
        env.finalAuth = some fs ∧
        text = jsonStringifyOpt (getCredentialsFromSession fs) ∧
        (kwiksetLogin prev env).listenStarted = true) := by
  constructor
  · intro b c hc
    rw [kwiksetLogin, hc]
    exact ⟨rfl, rfl⟩
  · intro text hw
    cases hcs : cachedStage env with
    | error u => rw [kwiksetLogin, hcs] at hw; simp at hw
    | ok p =>
      obtain ⟨b, cr⟩ := p
      cases cr with
      | some c => rw [kwiksetLogin, hcs] at hw; simp at hw
      | none =>
        cases hsi : env.signIn with
        | error msg => rw [kwiksetLogin, hcs] at hw; simp [hsi] at hw
        | ok u =>
          by_cases hu : u.challengeName = "CUSTOM_CHALLENGE"
          · by_cases hv : (env.mfaAttempts.foldl mfaStep mfaInit).codeVerified
            · cases hfa : env.finalAuth with
              | none => rw [kwiksetLogin, hcs] at hw; simp [hsi, hu, hv, hfa] at hw
              | some fs =>
                refine ⟨b, u, fs, rfl, rfl, hu, hv, rfl, ?_, ?_⟩
                · rw [kwiksetLogin, hcs] at hw
                  simp [hsi, hu, hv, hfa] at hw
                  exact hw.symm
                · rw [kwiksetLogin, hcs]
                  simp [hsi, hu, hv, hfa]
            · rw [kwiksetLogin, hcs] at hw; simp [hsi, hu, hv] at hw
          · rw [kwiksetLogin, hcs] at hw; simp [hsi, hu] at hw

/-- C9: an `apiRequest` made while the process-wide `idToken` is unset is
still performed without any error, carrying the invalid header value
`Bearer undefined`; the helper does not detect the misuse. -/
theorem kwikset_C9 (consts : Consts) (p m : String) (body : Option String) :
    apiRequest consts none p m body =
      { url := "https://" ++ consts.API_HOST ++ "/" ++ p
        method := m
        headers := [("Host", consts.API_HOST), ("User-Agent", consts.API_USER_AGENT),
          ("Accept-Encoding", "gzip"), ("Authorization", "Bearer undefined")]
        body := body } := rfl

/-- C10: on the MFA success path the persisted record comes from the
second session fetch performed after the verify loop, not from the record
captured inside the loop: when that second fetch returns null the file is
overwritten with the four bytes `null` — which `JSON.parse` maps to the
JavaScript value `null`, not a Credential Record — while the in-memory
`idToken` is still set from the loop-captured record. -/
theorem kwikset_C10 (prev : Option String) (env : Env) (b : Bool)
    (rejects : List MfaAttempt) (i a r : String)
    (hc : cachedStage env = .ok (b, none))
    (hsi : env.signIn = .ok ⟨"CUSTOM_CHALLENGE"⟩)
    (hrej : ∀ x ∈ rejects, x = MfaAttempt.authThrew)
    (hatt : env.mfaAttempts = rejects ++ [MfaAttempt.authOk (.ok i a r)])
    (hfin : env.finalAuth = some SessionResult.err) :
    (kwiksetLogin prev env).fileWritten = some jsNull ∧
    jsonParseCreds jsNull = some none ∧
    (kwiksetLogin prev env).finalIdToken = some i ∧
    (kwiksetLogin prev env).status = LoginStatus.completed := by
  have htr : kwiksetLogin prev env =
      { bootstrapperCalled := b, listenStarted := true
        fileWritten := some jsNull
        finalIdToken := some i, status := .completed } := by
    rw [kwiksetLogin, hc]
    simp only [hsi, hatt, foldl_mfaStep_success rejects hrej]
    simp [hfin, getCredentialsFromSession, jsonStringifyOpt]
  rw [htr]
  exact ⟨rfl, rfl, rfl, rfl⟩

/-! ## Concrete witnesses -/

/-- Environment with a valid stored record and a live cached session. -/
def envC1 : Env :=
  { fileContents := some (credsStringify ⟨"sid1", "sac1", "srf1"⟩)
    storedSession := .ok "nid1" "nac1" "nrf1"
    signIn := .error "unused", mfaAttempts := [], finalAuth := none }

/-- Witness for C1 at `envC1`. -/
theorem kwikset_C1_witness :
    kwiksetLogin none envC1 =
      { bootstrapperCalled := true, listenStarted := false, fileWritten := none
        finalIdToken := some "nid1", status := .completed } :=
  kwikset_C1 none envC1 ⟨"sid1", "sac1", "srf1"⟩ ⟨"nid1", "nac1", "nrf1"⟩ rfl rfl

/-- Environment with a valid stored record and a live cached session,
capturing idToken `nid2`. -/
def envC2 : Env :=
  { fileContents := some (credsStringify ⟨"sid2", "sac2", "srf2"⟩)
    storedSession := .ok "nid2" "nac2" "nrf2"
    signIn := .error "unused", mfaAttempts := [], finalAuth := none }

/-- Witness for C2 at `envC2` with a concrete host. -/
theorem kwikset_C2_witness :
    apiRequest ⟨"host.example", "agent"⟩ (kwiksetLogin none envC2).finalIdToken
        "lock/status" "GET" none =
      { url := "https://host.example/lock/status"
        method := "GET"
        headers := [("Host", "host.example"), ("User-Agent", "agent"),
          ("Accept-Encoding", "gzip"), ("Authorization", "Bearer nid2")]
        body := none } :=
  kwikset_C2 ⟨"host.example", "agent"⟩ none envC2 "nid2"
    (by rw [kwiksetLogin,
      show cachedStage envC2 = .ok (true, some ⟨"nid2", "nac2", "nrf2"⟩) from by
        rw [cachedStage, show envC2.fileContents = some (credsStringify ⟨"sid2", "sac2", "srf2"⟩) from rfl]
        simp only [loadSavedCreds, jsonParseCreds_credsStringify, logInWithStoredCreds]
        rfl])

/-- Environment reaching the MFA loop with two rejected codes and then an
accepted one. -/
def envC3 : Env :=
  { fileContents := none, storedSession := .err
    signIn := .ok ⟨"CUSTOM_CHALLENGE"⟩
    mfaAttempts := [.authThrew, .authThrew, .authOk (.ok "i3" "a3" "r3")]
    finalAuth := some (.ok "fi3" "fa3" "fr3") }

/-- Witness for C3 at `envC3`. -/
theorem kwikset_C3_witness :
    kwiksetLogin none envC3 =
      { bootstrapperCalled := false, listenStarted := true
        fileWritten := some (credsStringify ⟨"fi3", "fa3", "fr3"⟩)
        finalIdToken := some "i3", status := .completed } :=
  (kwikset_C3 none envC3 false [.authThrew, .authThrew] "i3" "a3" "r3" "fi3" "fa3" "fr3"
    rfl rfl (by decide) rfl rfl).2

/-- Environment with no token file and a failing password sign-in. -/
def envC4 : Env :=
  { fileContents := none, storedSession := .err
    signIn := .error "NotAuthorizedException", mfaAttempts := [], finalAuth := none }

/-- Witness for C4 at `envC4`. -/
theorem kwikset_C4_witness :
    kwiksetLogin none envC4 =
      { bootstrapperCalled := false, listenStarted := false, fileWritten := none
        finalIdToken := none, status := .signInErrorReturn } :=
  kwikset_C4 none envC4 false "NotAuthorizedException" rfl rfl

/-- Environment where sign-in succeeds with an unsupported challenge. -/
def envC5 : Env :=
  { fileContents := none, storedSession := .err
    signIn := .ok ⟨"SOFTWARE_TOKEN_MFA"⟩, mfaAttempts := [], finalAuth := none }

/-- Witness for C5 at `envC5`. -/
theorem kwikset_C5_witness :
    kwiksetLogin none envC5 =
      { bootstrapperCalled := false, listenStarted := false, fileWritten := none
        finalIdToken := none, status := .completed } :=
  kwikset_C5 none envC5 false ⟨"SOFTWARE_TOKEN_MFA"⟩ rfl rfl (by decide)

/-- Environment with no token file on disk. -/
def envC7 : Env :=
  { fileContents := none, storedSession := .ok "x" "y" "z"
    signIn := .error "unused", mfaAttempts := [], finalAuth := none }

/-- Witness for C7 at `envC7`. -/
theorem kwikset_C7_witness :
    loadSavedCreds envC7.fileContents = .ok none ∧
    (kwiksetLogin none envC7).bootstrapperCalled = false ∧
    (kwiksetLogin none envC7).status ≠ LoginStatus.threwParse :=
  kwikset_C7 none envC7 rfl

/-- Environment with a valid stored record and a live cached session. -/
def envC8 : Env :=
  { fileContents := some (credsStringify ⟨"sid8", "sac8", "srf8"⟩)
    storedSession := .ok "nid8" "nac8" "nrf8"
    signIn := .error "unused", mfaAttempts := [], finalAuth := none }

/-- Witness for C8 at `envC8`: the cached-success run writes nothing. -/
theorem kwikset_C8_witness :
    (kwiksetLogin none envC8).fileWritten = none ∧
    (kwiksetLogin none envC8).listenStarted = false :=
  (kwikset_C8 none envC8).1 true ⟨"nid8", "nac8", "nrf8"⟩
    (by
      rw [cachedStage,
        show envC8.fileContents = some (credsStringify ⟨"sid8", "sac8", "srf8"⟩) from rfl]
      simp only [loadSavedCreds, jsonParseCreds_credsStringify, logInWithStoredCreds]
      rfl)

/-- Environment reaching the MFA loop where the post-loop session fetch
returns null. -/
def envC10 : Env :=
  { fileContents := none, storedSession := .err
    signIn := .ok ⟨"CUSTOM_CHALLENGE"⟩
    mfaAttempts := [.authThrew, .authOk (.ok "i10" "a10" "r10")]
    finalAuth := some .err }

/-- Witness for C10 at `envC10`. -/
theorem kwikset_C10_witness :
    (kwiksetLogin none envC10).fileWritten = some jsNull ∧
    jsonParseCreds jsNull = some none ∧
    (kwiksetLogin none envC10).finalIdToken = some "i10" ∧
    (kwiksetLogin none envC10).status = LoginStatus.completed :=
  kwikset_C10 none envC10 false [.authThrew] "i10" "a10" "r10" rfl rfl (by decide) rfl rfl
